import Mathlib

/-!
Shallow embedding of the concurrent aggregation coordinator of
`python/services/catalog` (`service_layer/queries.py`, `domain/models.py`,
`ports.py`).

Time is modelled as `ℚ` (durations in seconds).  A capability call
(`Client.get(product_id, timeout=...)`) is modelled as a timed run: the
moment the coroutine reaches its terminal state, together with its outcome
(a value or a raised exception).  The `asyncio.TaskGroup` block of
`fetch_product` is modelled by its documented join semantics: if every task
completes with a value the block exits at the last finish time; otherwise
the first task to raise triggers cancellation of the still-running
siblings, errors raised no later than that instant are collected into an
`ExceptionGroup` (cancelled tasks contribute nothing), and the block
re-raises that group once every task is terminal.  The `except` clause of
`fetch_product` (lines 31-40 of `queries.py`) is embedded verbatim as
`classifyRaise`.
-/

instance {ε α : Type} [DecidableEq ε] [DecidableEq α] : DecidableEq (Except ε α) := fun x y =>
  match x, y with
  | .ok a, .ok b => if h : a = b then .isTrue (by rw [h]) else .isFalse (by simp [h])
  | .error a, .error b => if h : a = b then .isTrue (by rw [h]) else .isFalse (by simp [h])
  | .ok _, .error _ => .isFalse (by simp)
  | .error _, .ok _ => .isFalse (by simp)

namespace CatalogCoordinator

/-- Wall-clock durations / instants, in seconds. -/
abbrev Time := ℚ

/-- Python `domain/models.py`: `Inventory(available: int)`. -/
structure Inventory where
  available : Int
deriving Repr, DecidableEq

/-- Python `domain/models.py`: `Price(currency: str, amount: float)`; the float
amount is modelled as a rational. -/
structure Price where
  currency : String
  amount : ℚ
deriving Repr, DecidableEq

/-- Python `domain/models.py`: `Product(id, inventory, price, reviews)`. -/
structure Product where
  id : String
  inventory : Inventory
  price : Price
  reviews : List String
deriving Repr, DecidableEq

/-- A Python exception observable from an upstream call: either a
`TimeoutError` (`asyncio.TimeoutError` is the same class on Python 3.11+)
or any other exception, kept opaque up to a diagnostic string. -/
inductive PyExc where
  | timeoutError : PyExc
  | otherError : String → PyExc
deriving Repr, DecidableEq

/-- The test `isinstance(sub_exc, (TimeoutError, asyncio.TimeoutError))` on a
sub-exception of the group (line 36 of `queries.py`). -/
def isTimeoutLike : PyExc → Bool
  | .timeoutError => true
  | .otherError _ => false

/-- What the body of the `try` (the `TaskGroup` block) can raise into the
`except (TimeoutError, ExceptionGroup)` clause: a bare `TimeoutError`, or an
`ExceptionGroup` carrying the task exceptions. -/
inductive PhaseRaise where
  | bareTimeout : PhaseRaise
  | group : List PyExc → PhaseRaise
deriving Repr, DecidableEq

/-- What `fetch_product` can raise to its caller: the typed
`UpstreamTimeout(msg)` (lines 37 and 40), or the original `ExceptionGroup`
re-raised unchanged by the bare `raise` on line 39.  `queries.py` defines
no other error type: in particular there is no `UpstreamFailure` class. -/
inductive FetchError where
  | upstreamTimeout : String → FetchError
  | reraisedGroup : List PyExc → FetchError
deriving Repr, DecidableEq

/-- Message of every `UpstreamTimeout` raised by `fetch_product` (lines 37
and 40 of `queries.py`). -/
def timeoutMsg : String := "Upstream timed out"

/-- Lines 31-40 of `queries.py`: the except clause.  For an
`ExceptionGroup`, scan its sub-exceptions; if any is a `TimeoutError`,
raise `UpstreamTimeout("Upstream timed out")`; otherwise re-raise the group
unchanged.  A bare `TimeoutError` becomes `UpstreamTimeout` directly. -/
def classifyRaise : PhaseRaise → FetchError
  | .group excs =>
      if excs.any isTimeoutLike then
        .upstreamTimeout timeoutMsg
      else
        .reraisedGroup excs
  | .bareTimeout => .upstreamTimeout timeoutMsg

/-- Value produced by the reviews client.  Its annotation is `list[str]`,
but Python does not enforce annotations and line 46 (`revs or []`)
tolerates `None`, so the runtime value is modelled as an optional list
(`none` = Python `None`). -/
abbrev ReviewsValue := Option (List String)

/-- Line 46: `revs or []` — a falsy value (Python `None` or the empty
list) is replaced by `[]`; a non-empty list passes through verbatim. -/
def orEmptyList : ReviewsValue → List String
  | none => []
  | some l => if l.isEmpty then [] else l

/-- One capability coroutine, run to its terminal state: the instant
(seconds from the start of `fetch_product`) at which it would naturally
finish, and its outcome — a value or a raised exception. -/
structure TaskRun (α : Type) where
  finish : Time
  outcome : Except PyExc α

/-- Port `InventoryClient` of `ports.py`: `get(product_id, *, timeout) -> Inventory`. -/
structure InventoryClient where
  get : String → Option Time → TaskRun Inventory

/-- Port `PricingClient` of `ports.py`: `get(product_id, *, timeout) -> Price`. -/
structure PricingClient where
  get : String → Option Time → TaskRun Price

/-- Port `ReviewsClient` of `ports.py`: `get(product_id, *, timeout) -> list[str]`. -/
structure ReviewsClient where
  get : String → Option Time → TaskRun ReviewsValue

/-- The exception of a run, if it raised one. -/
def TaskRun.err? : TaskRun α → Option PyExc
  | ⟨_, .ok _⟩ => none
  | ⟨_, .error e⟩ => some e

/-- Whether a run completed with a value. -/
def TaskRun.isOk : TaskRun α → Bool
  | ⟨_, .ok _⟩ => true
  | ⟨_, .error _⟩ => false

/-- The finish times of the runs that raised, in task-creation order. -/
def errFinishTimes (rInv : TaskRun Inventory) (rPrice : TaskRun Price)
    (rRev : TaskRun ReviewsValue) : List Time :=
  (match rInv.err? with | some _ => [rInv.finish] | none => []) ++
  (match rPrice.err? with | some _ => [rPrice.finish] | none => []) ++
  (match rRev.err? with | some _ => [rRev.finish] | none => [])

/-- The instant of the first failure: the least finish time among the runs
that raised (`0` when none raised; never used in that case). -/
def failTime (rInv : TaskRun Inventory) (rPrice : TaskRun Price)
    (rRev : TaskRun ReviewsValue) : Time :=
  match errFinishTimes rInv rPrice rRev with
  | [] => 0
  | t :: ts => ts.foldl min t

/-- The contribution of one run to the `ExceptionGroup`: its exception,
when it raised no later than the first-failure instant `tFail`.  A run
still pending at `tFail` is cancelled by the `TaskGroup`; its
`CancelledError` is absorbed and contributes nothing. -/
def lateErrs (tFail : Time) (r : TaskRun α) : List PyExc :=
  match r.err? with
  | some e => if r.finish ≤ tFail then [e] else []
  | none => []

/-- The sub-exceptions of the `ExceptionGroup` raised by the `TaskGroup`
block, in task-creation order: the exceptions of the runs that raised at
the first-failure instant. -/
def phaseGroup (rInv : TaskRun Inventory) (rPrice : TaskRun Price)
    (rRev : TaskRun ReviewsValue) : List PyExc :=
  lateErrs (failTime rInv rPrice rRev) rInv ++
  lateErrs (failTime rInv rPrice rRev) rPrice ++
  lateErrs (failTime rInv rPrice rRev) rRev

/-- Terminal (or not) state of one concurrent unit. -/
inductive UnitState where
  | running : UnitState
  | completed : UnitState
  | failed : UnitState
  | cancelled : UnitState
deriving Repr, DecidableEq

/-- The terminal state a run reaches on its own, with no cancellation. -/
def natTerm (r : TaskRun α) : UnitState :=
  match r.outcome with
  | .ok _ => .completed
  | .error _ => .failed

/-- The state of a unit at instant `t`, given that the shared cancellation
signal (if any) was raised at instant `cancelAt` and is honored promptly:
before its terminal instant the unit is running; a unit whose natural
finish precedes the signal terminates naturally; one still pending at the
signal is cancelled at that instant. -/
def unitStateAt (r : TaskRun α) (cancelAt : Option Time) (t : Time) : UnitState :=
  match cancelAt with
  | none => if t < r.finish then .running else natTerm r
  | some c =>
      if r.finish ≤ c then
        if t < r.finish then .running else natTerm r
      else
        if t < c then .running else .cancelled

/-- Which capability a recorded invocation went to. -/
inductive CapKind where
  | inventory : CapKind
  | pricing : CapKind
  | reviews : CapKind
deriving Repr, DecidableEq

/-- One recorded invocation of the `get` of one capability. -/
structure CapCall where
  kind : CapKind
  productId : String
  timeout : Option Time
deriving Repr, DecidableEq

/-- Everything observable about one invocation of `fetch_product`: the
value returned or error raised, the instant the call returns, the `get`
invocations it performed, and the state of each spawned unit at the instant
of return. -/
structure FetchExec where
  result : Except FetchError Product
  returnTime : Time
  calls : List CapCall
  invState : UnitState
  priceState : UnitState
  revState : UnitState
deriving Repr

/-- The join of the `TaskGroup` block and the tail of `fetch_product`
(lines 26-46), as a function of the three task runs.  If all three
completed with values, the block exits when the last finishes and lines
42-46 assemble the `Product` (line 46 applies `revs or []`).  Otherwise
the first failure cancels the still-running siblings, the group of
simultaneous errors is classified by the except clause (`classifyRaise`),
and the call returns once every unit is terminal — at the first-failure
instant, cancellation being prompt. -/
def joinAndAssemble (productId : String) (rInv : TaskRun Inventory)
    (rPrice : TaskRun Price) (rRev : TaskRun ReviewsValue)
    (calls : List CapCall) : FetchExec :=
  match rInv.outcome, rPrice.outcome, rRev.outcome with
  | .ok invVal, .ok priceVal, .ok revsVal =>
      { result := .ok { id := productId, inventory := invVal,
                        price := priceVal, reviews := orEmptyList revsVal }
        returnTime := max rInv.finish (max rPrice.finish rRev.finish)
        calls := calls
        invState := unitStateAt rInv none (max rInv.finish (max rPrice.finish rRev.finish))
        priceState := unitStateAt rPrice none (max rInv.finish (max rPrice.finish rRev.finish))
        revState := unitStateAt rRev none (max rInv.finish (max rPrice.finish rRev.finish)) }
  | _, _, _ =>
      { result := .error (classifyRaise (.group (phaseGroup rInv rPrice rRev)))
        returnTime := failTime rInv rPrice rRev
        calls := calls
        invState := unitStateAt rInv (some (failTime rInv rPrice rRev)) (failTime rInv rPrice rRev)
        priceState := unitStateAt rPrice (some (failTime rInv rPrice rRev)) (failTime rInv rPrice rRev)
        revState := unitStateAt rRev (some (failTime rInv rPrice rRev)) (failTime rInv rPrice rRev) }

/-- Function `fetch_product(product_id, *, inventory, pricing, reviews,
timeout_seconds)` (lines 14-46 of `queries.py`).  Lines 28-30 invoke each
`get` of each client exactly once, with `product_id` unmodified and
`timeout=timeout_seconds`; no deadline check or timer belonging to the
coordinator itself exists anywhere in the function. -/
def fetch_product (productId : String) (inventory : InventoryClient)
    (pricing : PricingClient) (reviews : ReviewsClient)
    (timeoutSeconds : Time) : FetchExec :=
  joinAndAssemble productId
    (inventory.get productId (some timeoutSeconds))
    (pricing.get productId (some timeoutSeconds))
    (reviews.get productId (some timeoutSeconds))
    [⟨.inventory, productId, some timeoutSeconds⟩,
     ⟨.pricing, productId, some timeoutSeconds⟩,
     ⟨.reviews, productId, some timeoutSeconds⟩]

/-! Concrete capability doubles, in the mold of the `StubClient` of the
test suite: a fixed outcome delivered at a fixed instant, for any id and
timeout. -/

/-- An inventory client that returns `v` at instant `d`. -/
def constInventoryClient (v : Inventory) (d : Time) : InventoryClient :=
  ⟨fun _ _ => ⟨d, .ok v⟩⟩

/-- An inventory client that raises `e` at instant `d`. -/
def failInventoryClient (e : PyExc) (d : Time) : InventoryClient :=
  ⟨fun _ _ => ⟨d, .error e⟩⟩

/-- A pricing client that returns `v` at instant `d`. -/
def constPricingClient (v : Price) (d : Time) : PricingClient :=
  ⟨fun _ _ => ⟨d, .ok v⟩⟩

/-- A pricing client that raises `e` at instant `d`. -/
def failPricingClient (e : PyExc) (d : Time) : PricingClient :=
  ⟨fun _ _ => ⟨d, .error e⟩⟩

/-- A reviews client that returns `v` at instant `d`. -/
def constReviewsClient (v : ReviewsValue) (d : Time) : ReviewsClient :=
  ⟨fun _ _ => ⟨d, .ok v⟩⟩

/-- A reviews client that raises `e` at instant `d`. -/
def failReviewsClient (e : PyExc) (d : Time) : ReviewsClient :=
  ⟨fun _ _ => ⟨d, .error e⟩⟩

end CatalogCoordinator

namespace CatalogCoordinator

/-- Identifier, currency, diagnostic and review strings used by the
concrete verification scenarios. -/
def pid : String := "p1"

def usd : String := "USD"

def boomMsg : String := "boom"

def revOk : String := "ok"

def revGreat : String := "great"

theorem orEmptyList_some (l : List String) : orEmptyList (some l) = l := by
  cases l <;> simp [orEmptyList]

theorem natTerm_ne_running {α : Type} (r : TaskRun α) : natTerm r ≠ .running := by
  obtain ⟨f, o⟩ := r
  cases o <;> simp [natTerm]

theorem unitStateAt_none_terminal {α : Type} (r : TaskRun α) (t : Time)
    (h : r.finish ≤ t) : unitStateAt r none t ≠ .running := by
  simp only [unitStateAt]
  rw [if_neg (not_lt.mpr h)]
  exact natTerm_ne_running r

theorem unitStateAt_cancel_terminal {α : Type} (r : TaskRun α) (c : Time) :
    unitStateAt r (some c) c ≠ .running := by
  simp only [unitStateAt]
  by_cases h : r.finish ≤ c
  · rw [if_pos h, if_neg (not_lt.mpr h)]
    exact natTerm_ne_running r
  · rw [if_neg h, if_neg (lt_irrefl c)]
    decide

theorem TaskRun.isOk_iff {α : Type} (r : TaskRun α) :
    r.isOk = true ↔ ∃ v, r.outcome = .ok v := by
  obtain ⟨f, o⟩ := r
  cases o <;> simp [TaskRun.isOk]

theorem lateErrs_of_ok {α : Type} (t : Time) (r : TaskRun α) (v : α)
    (h : r.outcome = .ok v) : lateErrs t r = [] := by
  obtain ⟨f, o⟩ := r
  cases o <;> simp_all [lateErrs, TaskRun.err?]

theorem phaseGroup_all_ok (rI : TaskRun Inventory) (rP : TaskRun Price)
    (rR : TaskRun ReviewsValue) (i : Inventory) (p : Price) (v : ReviewsValue)
    (hI : rI.outcome = .ok i) (hP : rP.outcome = .ok p) (hR : rR.outcome = .ok v) :
    phaseGroup rI rP rR = [] := by
  simp [phaseGroup, lateErrs_of_ok (failTime rI rP rR) rI i hI,
    lateErrs_of_ok (failTime rI rP rR) rP p hP,
    lateErrs_of_ok (failTime rI rP rR) rR v hR]

theorem classifyRaise_group_timeout (g : List PyExc) (h : PyExc.timeoutError ∈ g) :
    classifyRaise (.group g) = .upstreamTimeout timeoutMsg := by
  have ha : g.any isTimeoutLike = true := by
    rw [List.any_eq_true]
    exact ⟨_, h, rfl⟩
  simp [classifyRaise, ha]

theorem classifyRaise_group_no_timeout (g : List PyExc)
    (h : PyExc.timeoutError ∉ g) : classifyRaise (.group g) = .reraisedGroup g := by
  have ha : g.any isTimeoutLike = false := by
    rw [List.any_eq_false]
    intro e he
    cases e with
    | timeoutError => exact absurd he h
    | otherError s => simp [isTimeoutLike]
  simp [classifyRaise, ha]

theorem joinAndAssemble_all_ok (productId : String) (rI : TaskRun Inventory)
    (rP : TaskRun Price) (rR : TaskRun ReviewsValue) (cs : List CapCall)
    (i : Inventory) (p : Price) (v : ReviewsValue)
    (hI : rI.outcome = .ok i) (hP : rP.outcome = .ok p) (hR : rR.outcome = .ok v) :
    joinAndAssemble productId rI rP rR cs =
      { result := .ok { id := productId, inventory := i, price := p,
                        reviews := orEmptyList v }
        returnTime := max rI.finish (max rP.finish rR.finish)
        calls := cs
        invState := unitStateAt rI none (max rI.finish (max rP.finish rR.finish))
        priceState := unitStateAt rP none (max rI.finish (max rP.finish rR.finish))
        revState := unitStateAt rR none (max rI.finish (max rP.finish rR.finish)) } := by
  unfold joinAndAssemble
  rw [hI, hP, hR]

theorem joinAndAssemble_fail (productId : String) (rI : TaskRun Inventory)
    (rP : TaskRun Price) (rR : TaskRun ReviewsValue) (cs : List CapCall)
    (hNotAll : rI.isOk = false ∨ rP.isOk = false ∨ rR.isOk = false) :
    joinAndAssemble productId rI rP rR cs =
      { result := .error (classifyRaise (.group (phaseGroup rI rP rR)))
        returnTime := failTime rI rP rR
        calls := cs
        invState := unitStateAt rI (some (failTime rI rP rR)) (failTime rI rP rR)
        priceState := unitStateAt rP (some (failTime rI rP rR)) (failTime rI rP rR)
        revState := unitStateAt rR (some (failTime rI rP rR)) (failTime rI rP rR) } := by
  obtain ⟨f1, o1⟩ := rI
  obtain ⟨f2, o2⟩ := rP
  obtain ⟨f3, o3⟩ := rR
  cases o1 <;> cases o2 <;> cases o3 <;> simp_all [joinAndAssemble, TaskRun.isOk]

theorem joinAndAssemble_calls (productId : String) (rI : TaskRun Inventory)
    (rP : TaskRun Price) (rR : TaskRun ReviewsValue) (cs : List CapCall) :
    (joinAndAssemble productId rI rP rR cs).calls = cs := by
  obtain ⟨f1, o1⟩ := rI
  obtain ⟨f2, o2⟩ := rP
  obtain ⟨f3, o3⟩ := rR
  cases o1 <;> cases o2 <;> cases o3 <;> rfl

theorem joinAndAssemble_ok_iff (productId : String) (rI : TaskRun Inventory)
    (rP : TaskRun Price) (rR : TaskRun ReviewsValue) (cs : List CapCall) :
    (∃ q, (joinAndAssemble productId rI rP rR cs).result = .ok q) ↔
      (rI.isOk = true ∧ rP.isOk = true ∧ rR.isOk = true) := by
  obtain ⟨f1, o1⟩ := rI
  obtain ⟨f2, o2⟩ := rP
  obtain ⟨f3, o3⟩ := rR
  cases o1 <;> cases o2 <;> cases o3 <;> simp [joinAndAssemble, TaskRun.isOk]

theorem joinAndAssemble_units_terminal (productId : String) (rI : TaskRun Inventory)
    (rP : TaskRun Price) (rR : TaskRun ReviewsValue) (cs : List CapCall) :
    (joinAndAssemble productId rI rP rR cs).invState ≠ .running ∧
    (joinAndAssemble productId rI rP rR cs).priceState ≠ .running ∧
    (joinAndAssemble productId rI rP rR cs).revState ≠ .running := by
  obtain ⟨f1, o1⟩ := rI
  obtain ⟨f2, o2⟩ := rP
  obtain ⟨f3, o3⟩ := rR
  cases o1 <;> cases o2 <;> cases o3 <;>
    first
      | exact ⟨unitStateAt_cancel_terminal _ _, unitStateAt_cancel_terminal _ _,
          unitStateAt_cancel_terminal _ _⟩
      | exact ⟨unitStateAt_none_terminal _ _ (le_max_left _ _),
          unitStateAt_none_terminal _ _
            (le_trans (le_max_left _ _) (le_max_right _ _)),
          unitStateAt_none_terminal _ _
            (le_trans (le_max_right _ _) (le_max_right _ _))⟩

theorem not_all_ok_of_mem_phaseGroup (rI : TaskRun Inventory) (rP : TaskRun Price)
    (rR : TaskRun ReviewsValue) (e : PyExc) (hMem : e ∈ phaseGroup rI rP rR) :
    rI.isOk = false ∨ rP.isOk = false ∨ rR.isOk = false := by
  cases hb1 : rI.isOk with
  | false => exact Or.inl rfl
  | true =>
    cases hb2 : rP.isOk with
    | false => exact Or.inr (Or.inl rfl)
    | true =>
      cases hb3 : rR.isOk with
      | false => exact Or.inr (Or.inr rfl)
      | true =>
        exfalso
        obtain ⟨i, hi⟩ := (TaskRun.isOk_iff rI).mp hb1
        obtain ⟨p, hp⟩ := (TaskRun.isOk_iff rP).mp hb2
        obtain ⟨v, hv⟩ := (TaskRun.isOk_iff rR).mp hb3
        rw [phaseGroup_all_ok rI rP rR i p v hi hp hv] at hMem
        exact absurd hMem (List.not_mem_nil e)

end CatalogCoordinator

namespace CatalogCoordinator

/-- C1 counterexample: pricing raises a domain error at once, inventory and
reviews succeed fast, deadline 2s.  `fetch_product` propagates the raw
exception group holding the cause from pricing to the caller; no `UpstreamFailure`
wrapper exists in the code (`FetchError` has no such constructor). -/
theorem fetch_upstream_failure_wrapping_cex :
    (fetch_product pid (constInventoryClient ⟨3⟩ 0)
       (failPricingClient (.otherError boomMsg) 0)
       (constReviewsClient (some [revOk]) 0) 2).result =
      .error (.reraisedGroup [.otherError boomMsg]) := by decide

/-- C1 (amended): when some capability fails and no timeout error is among
the group causes, `fetch_product` fails by re-raising the raw exception
group — containing the first-observed cause(s) — unchanged; the code
defines no `UpstreamFailure` wrapper. -/
theorem fetch_reraises_raw_group (productId : String) (inventory : InventoryClient)
    (pricing : PricingClient) (reviews : ReviewsClient) (T : Time) (e : PyExc)
    (hMem : e ∈ phaseGroup (inventory.get productId (some T))
      (pricing.get productId (some T)) (reviews.get productId (some T)))
    (hNoTO : PyExc.timeoutError ∉ phaseGroup (inventory.get productId (some T))
      (pricing.get productId (some T)) (reviews.get productId (some T))) :
    (fetch_product productId inventory pricing reviews T).result =
      .error (.reraisedGroup (phaseGroup (inventory.get productId (some T))
        (pricing.get productId (some T)) (reviews.get productId (some T)))) := by
  unfold fetch_product
  rw [joinAndAssemble_fail _ _ _ _ _
    (not_all_ok_of_mem_phaseGroup _ _ _ e hMem)]
  rw [classifyRaise_group_no_timeout _ hNoTO]

/-- C1 witness: concrete failing pricing capability; the re-raised group is
exactly the singleton holding the cause from pricing. -/
theorem fetch_reraises_raw_group_witness :
    (fetch_product pid (constInventoryClient ⟨3⟩ 1)
       (failPricingClient (.otherError boomMsg) 0)
       (constReviewsClient (some [revOk]) 1) 2).result =
      .error (.reraisedGroup [.otherError boomMsg]) := by
  rw [fetch_reraises_raw_group pid (constInventoryClient ⟨3⟩ 1)
    (failPricingClient (.otherError boomMsg) 0)
    (constReviewsClient (some [revOk]) 1) 2
    (.otherError boomMsg) (by decide) (by decide)]
  decide

/-- C2: whenever the exception group produced by the concurrent units
contains a timeout error — also alongside a distinct non-timeout error —
the classification scan of lines 33-37 fires first and `fetch_product`
fails with `UpstreamTimeout`: timeout takes precedence. -/
theorem fetch_timeout_precedence (productId : String) (inventory : InventoryClient)
    (pricing : PricingClient) (reviews : ReviewsClient) (T : Time) (e : PyExc)
    (hTO : PyExc.timeoutError ∈ phaseGroup (inventory.get productId (some T))
      (pricing.get productId (some T)) (reviews.get productId (some T)))
    (hOther : e ∈ phaseGroup (inventory.get productId (some T))
      (pricing.get productId (some T)) (reviews.get productId (some T)))
    (hNe : isTimeoutLike e = false) :
    (fetch_product productId inventory pricing reviews T).result =
      .error (.upstreamTimeout timeoutMsg) := by
  unfold fetch_product
  rw [joinAndAssemble_fail _ _ _ _ _
    (not_all_ok_of_mem_phaseGroup _ _ _ PyExc.timeoutError hTO)]
  rw [classifyRaise_group_timeout _ hTO]

/-- C2 witness: inventory raises a `TimeoutError` and pricing a distinct
domain error at the same instant; the group holds both and the call fails
with `UpstreamTimeout`. -/
theorem fetch_timeout_precedence_witness :
    (fetch_product pid (failInventoryClient .timeoutError 0)
       (failPricingClient (.otherError boomMsg) 0)
       (constReviewsClient (some [revOk]) 1) 2).result =
      .error (.upstreamTimeout timeoutMsg) :=
  fetch_timeout_precedence pid (failInventoryClient .timeoutError 0)
    (failPricingClient (.otherError boomMsg) 0)
    (constReviewsClient (some [revOk]) 1) 2
    (.otherError boomMsg) (by decide) (by decide) (by decide)

/-- C3: when all three capabilities succeed within the deadline, the
returned composite echoes the input id unmodified and carries exactly the
inventory, price and review values the capabilities produced, review order
preserved verbatim. -/
theorem fetch_success_composition (productId : String) (inventory : InventoryClient)
    (pricing : PricingClient) (reviews : ReviewsClient) (T : Time)
    (i : Inventory) (p : Price) (revs : List String)
    (hI : (inventory.get productId (some T)).outcome = .ok i)
    (hP : (pricing.get productId (some T)).outcome = .ok p)
    (hR : (reviews.get productId (some T)).outcome = .ok (some revs))
    (hIt : (inventory.get productId (some T)).finish ≤ T)
    (hPt : (pricing.get productId (some T)).finish ≤ T)
    (hRt : (reviews.get productId (some T)).finish ≤ T) :
    (fetch_product productId inventory pricing reviews T).result =
      .ok { id := productId, inventory := i, price := p, reviews := revs } := by
  unfold fetch_product
  rw [joinAndAssemble_all_ok _ _ _ _ _ _ _ _ hI hP hR]
  simp [orEmptyList_some]

/-- C3 witness: the happy-path scenario of the spec, with integral values. -/
theorem fetch_success_composition_witness :
    (fetch_product pid (constInventoryClient ⟨3⟩ 0) (constPricingClient ⟨usd, 10⟩ 0)
       (constReviewsClient (some [revOk, revGreat]) 0) 2).result =
      .ok { id := pid, inventory := ⟨3⟩, price := ⟨usd, 10⟩,
            reviews := [revOk, revGreat] } :=
  fetch_success_composition pid (constInventoryClient ⟨3⟩ 0)
    (constPricingClient ⟨usd, 10⟩ 0)
    (constReviewsClient (some [revOk, revGreat]) 0) 2
    ⟨3⟩ ⟨usd, 10⟩ [revOk, revGreat] rfl rfl rfl
    (by decide) (by decide) (by decide)

end CatalogCoordinator

namespace CatalogCoordinator

/-- C4 counterexample: inventory completes successfully only at instant 3,
after the deadline 2, yet a composite is returned — refuting the only-if
direction (all completed before the deadline) of the claim. -/
theorem fetch_all_or_nothing_deadline_cex :
    (∃ q, (fetch_product pid (constInventoryClient ⟨3⟩ 3)
       (constPricingClient ⟨usd, 10⟩ 1)
       (constReviewsClient (some [revOk]) 1) 2).result = .ok q) ∧
    ¬ (((constInventoryClient ⟨3⟩ 3).get pid (some 2)).finish ≤ 2) := by
  exact ⟨⟨Product.mk pid ⟨3⟩ ⟨usd, 10⟩ [revOk], by decide⟩, by decide⟩

/-- C4 (amended): a composite is returned iff all three constituent
fetches completed successfully — the coordinator never checks completion
against the deadline; whenever any constituent fails, no composite
(partial or default-filled) is observable. -/
theorem fetch_all_or_nothing (productId : String) (inventory : InventoryClient)
    (pricing : PricingClient) (reviews : ReviewsClient) (T : Time) :
    (∃ q, (fetch_product productId inventory pricing reviews T).result = .ok q) ↔
      ((inventory.get productId (some T)).isOk = true ∧
       (pricing.get productId (some T)).isOk = true ∧
       (reviews.get productId (some T)).isOk = true) := by
  unfold fetch_product
  exact joinAndAssemble_ok_iff _ _ _ _ _

/-- C5 counterexample: deadline 0 with capabilities that respond at once:
`fetch_product` spawns all three units (the calls are recorded) and even
returns a composite instead of failing with `UpstreamTimeout`. -/
theorem fetch_zero_deadline_cex :
    (fetch_product pid (constInventoryClient ⟨3⟩ 0) (constPricingClient ⟨usd, 10⟩ 0)
       (constReviewsClient (some [revOk]) 0) 0).result =
      .ok { id := pid, inventory := ⟨3⟩, price := ⟨usd, 10⟩, reviews := [revOk] } ∧
    (fetch_product pid (constInventoryClient ⟨3⟩ 0) (constPricingClient ⟨usd, 10⟩ 0)
       (constReviewsClient (some [revOk]) 0) 0).calls =
      [⟨.inventory, pid, some 0⟩, ⟨.pricing, pid, some 0⟩,
       ⟨.reviews, pid, some 0⟩] := by
  constructor <;> decide

/-- C5 (amended): `fetch_product` performs no validation of the deadline:
for a zero or negative deadline it still invokes each capability exactly
once, identifier unmodified and the non-positive deadline passed as the
timeout; the outcome is then whatever the capability results dictate. -/
theorem fetch_nonpositive_deadline_spawns (productId : String)
    (inventory : InventoryClient) (pricing : PricingClient)
    (reviews : ReviewsClient) (T : Time) (hT : T ≤ 0) :
    (fetch_product productId inventory pricing reviews T).calls =
      [⟨.inventory, productId, some T⟩, ⟨.pricing, productId, some T⟩,
       ⟨.reviews, productId, some T⟩] := by
  unfold fetch_product
  exact joinAndAssemble_calls _ _ _ _ _

/-- C5 witness: deadline 0 — the three units are spawned regardless. -/
theorem fetch_nonpositive_deadline_spawns_witness :
    (fetch_product pid (constInventoryClient ⟨3⟩ 0) (constPricingClient ⟨usd, 10⟩ 0)
       (constReviewsClient (some [revOk]) 0) 0).calls =
      [⟨.inventory, pid, some 0⟩, ⟨.pricing, pid, some 0⟩,
       ⟨.reviews, pid, some 0⟩] :=
  fetch_nonpositive_deadline_spawns pid (constInventoryClient ⟨3⟩ 0)
    (constPricingClient ⟨usd, 10⟩ 0) (constReviewsClient (some [revOk]) 0) 0
    (by decide)

/-- C6 counterexample: inventory succeeds only at instant 3, past the
deadline 2, without raising any timeout; `fetch_product` does not
terminate with `UpstreamTimeout` when the deadline elapses — it waits the
full duration of the slow capability and returns the composite at instant 3. -/
theorem fetch_deadline_not_enforced_cex :
    (fetch_product pid (constInventoryClient ⟨3⟩ 3) (constPricingClient ⟨usd, 10⟩ 0)
       (constReviewsClient (some [revOk]) 0) 2).result =
      .ok { id := pid, inventory := ⟨3⟩, price := ⟨usd, 10⟩, reviews := [revOk] } ∧
    (fetch_product pid (constInventoryClient ⟨3⟩ 3) (constPricingClient ⟨usd, 10⟩ 0)
       (constReviewsClient (some [revOk]) 0) 2).returnTime = 3 ∧
    ¬ ((3 : Time) ≤ 2) := by
  refine ⟨by decide, by decide, by decide⟩

/-- C6 (amended): the coordinator enforces no deadline of its own — the
per-call timeout is advisory only.  If every capability succeeds and one
runs past the shared deadline without raising a timeout itself,
`fetch_product` waits for it and returns the composite strictly after the
deadline, never `UpstreamTimeout`. -/
theorem fetch_no_own_deadline (productId : String) (inventory : InventoryClient)
    (pricing : PricingClient) (reviews : ReviewsClient) (T : Time)
    (i : Inventory) (p : Price) (v : ReviewsValue)
    (hI : (inventory.get productId (some T)).outcome = .ok i)
    (hP : (pricing.get productId (some T)).outcome = .ok p)
    (hR : (reviews.get productId (some T)).outcome = .ok v)
    (hSlow : T < (inventory.get productId (some T)).finish) :
    (fetch_product productId inventory pricing reviews T).result =
      .ok { id := productId, inventory := i, price := p,
            reviews := orEmptyList v } ∧
    T < (fetch_product productId inventory pricing reviews T).returnTime := by
  unfold fetch_product
  rw [joinAndAssemble_all_ok _ _ _ _ _ _ _ _ hI hP hR]
  exact ⟨rfl, lt_of_lt_of_le hSlow (le_max_left _ _)⟩

/-- C6 witness: inventory finishing at instant 3, deadline 2. -/
theorem fetch_no_own_deadline_witness :
    (fetch_product pid (constInventoryClient ⟨3⟩ 3) (constPricingClient ⟨usd, 10⟩ 1)
       (constReviewsClient (some [revOk]) 1) 2).result =
      .ok { id := pid, inventory := ⟨3⟩, price := ⟨usd, 10⟩,
            reviews := orEmptyList (some [revOk]) } ∧
    (2 : Time) < (fetch_product pid (constInventoryClient ⟨3⟩ 3)
       (constPricingClient ⟨usd, 10⟩ 1)
       (constReviewsClient (some [revOk]) 1) 2).returnTime :=
  fetch_no_own_deadline pid (constInventoryClient ⟨3⟩ 3)
    (constPricingClient ⟨usd, 10⟩ 1) (constReviewsClient (some [revOk]) 1) 2
    ⟨3⟩ ⟨usd, 10⟩ (some [revOk]) rfl rfl rfl (by decide)

/-- C7: for every positive deadline, `fetch_product` invokes each
get of each capability exactly once — no retries — with the identifier passed
unmodified and the shared deadline as the timeout argument. -/
theorem fetch_single_invocation_per_capability (productId : String)
    (inventory : InventoryClient) (pricing : PricingClient)
    (reviews : ReviewsClient) (T : Time) (hT : 0 < T) :
    (fetch_product productId inventory pricing reviews T).calls =
      [⟨.inventory, productId, some T⟩, ⟨.pricing, productId, some T⟩,
       ⟨.reviews, productId, some T⟩] := by
  unfold fetch_product
  exact joinAndAssemble_calls _ _ _ _ _

/-- C7 witness: deadline 2 with concrete capabilities. -/
theorem fetch_single_invocation_per_capability_witness :
    (fetch_product pid (constInventoryClient ⟨3⟩ 0) (constPricingClient ⟨usd, 10⟩ 0)
       (constReviewsClient (some [revOk]) 0) 2).calls =
      [⟨.inventory, pid, some 2⟩, ⟨.pricing, pid, some 2⟩,
       ⟨.reviews, pid, some 2⟩] :=
  fetch_single_invocation_per_capability pid (constInventoryClient ⟨3⟩ 0)
    (constPricingClient ⟨usd, 10⟩ 0) (constReviewsClient (some [revOk]) 0) 2
    (by decide)

/-- C8: whatever the outcome, every spawned unit has reached a terminal
state (completed, failed or cancelled — never still running) at the
instant `fetch_product` returns. -/
theorem fetch_all_units_terminal (productId : String) (inventory : InventoryClient)
    (pricing : PricingClient) (reviews : ReviewsClient) (T : Time) :
    (fetch_product productId inventory pricing reviews T).invState ≠ .running ∧
    (fetch_product productId inventory pricing reviews T).priceState ≠ .running ∧
    (fetch_product productId inventory pricing reviews T).revState ≠ .running := by
  unfold fetch_product
  exact joinAndAssemble_units_terminal _ _ _ _ _

/-- C9: a falsy reviews value — Python `None` or the empty list — is
coerced to the empty list by line 46 (`revs or []`); the reviews field of
the composite is `[]` and the call still succeeds. -/
theorem fetch_falsy_reviews_coerced (productId : String) (inventory : InventoryClient)
    (pricing : PricingClient) (reviews : ReviewsClient) (T : Time)
    (i : Inventory) (p : Price) (v : ReviewsValue)
    (hI : (inventory.get productId (some T)).outcome = .ok i)
    (hP : (pricing.get productId (some T)).outcome = .ok p)
    (hR : (reviews.get productId (some T)).outcome = .ok v)
    (hFalsy : v = none ∨ v = some []) :
    (fetch_product productId inventory pricing reviews T).result =
      .ok { id := productId, inventory := i, price := p, reviews := [] } := by
  unfold fetch_product
  rw [joinAndAssemble_all_ok _ _ _ _ _ _ _ _ hI hP hR]
  rcases hFalsy with h | h <;> simp [h, orEmptyList]

/-- C9 witness: the reviews capability returns Python `None`. -/
theorem fetch_falsy_reviews_coerced_witness :
    (fetch_product pid (constInventoryClient ⟨3⟩ 0) (constPricingClient ⟨usd, 10⟩ 0)
       (constReviewsClient none 0) 2).result =
      .ok { id := pid, inventory := ⟨3⟩, price := ⟨usd, 10⟩, reviews := [] } :=
  fetch_falsy_reviews_coerced pid (constInventoryClient ⟨3⟩ 0)
    (constPricingClient ⟨usd, 10⟩ 0) (constReviewsClient none 0) 2
    ⟨3⟩ ⟨usd, 10⟩ none rfl rfl rfl (Or.inl rfl)

/-- C10: the except clause of lines 31-40 classifies a bare `TimeoutError`
(not wrapped in an exception group) exactly as it classifies a group
containing a timeout: both become `UpstreamTimeout`. -/
theorem fetch_bare_timeout_classified :
    classifyRaise .bareTimeout = .upstreamTimeout timeoutMsg ∧
    classifyRaise .bareTimeout = classifyRaise (.group [.timeoutError]) :=
  ⟨rfl, rfl⟩

end CatalogCoordinator
